import Mathlib

/-!
Verification of the macOS C11 `threads.h` compatibility shim
(`src/macos-compat/include/threads.h`).

The shim forwards seven thread-lifecycle operations onto pthreads.  We give
a shallow embedding: each `thrd_*` function is translated directly from the
C source; each `pthread_*` primitive is modelled by its documented POSIX
contract, parameterised over the outcome the OS chose (success or failure).
Machine integers are `Int`/`Nat` with explicit reductions modulo `2 ^ w`
where the C code converts between widths: on the target platform (macOS,
LP64) `int` is 32 bits and `intptr_t` / `void *` are 64 bits.
-/

/-- `thrd_t` wraps `pthread_t`, an opaque thread identifier. -/
abbrev thrd_t := Nat

/-- `thrd_success = 0` from the status enumeration in the source. -/
def thrd_success : Int := 0

/-- `thrd_error = 1` from the status enumeration in the source. -/
def thrd_error : Int := 1

/-- `thrd_timedout = 2` from the status enumeration in the source. -/
def thrd_timedout : Int := 2

/-- `thrd_busy = 3` from the status enumeration in the source. -/
def thrd_busy : Int := 3

/-- `thrd_nomem = 4` from the status enumeration in the source. -/
def thrd_nomem : Int := 4

/-- The closed status enumeration of the layer. -/
def statusCodes : List Int := [thrd_success, thrd_error, thrd_timedout, thrd_busy, thrd_nomem]

/-- Two's-complement value of a `w`-bit pattern `p` (assuming `p < 2 ^ w`). -/
def toSigned (w : Nat) (p : Nat) : Int :=
  if p < 2 ^ (w - 1) then (p : Int) else (p : Int) - 2 ^ w

/-- The `w`-bit two's-complement pattern of an integer value `v`. -/
def toPattern (w : Nat) (v : Int) : Nat := (v % ((2 : Int) ^ w)).toNat

/-- Smallest value of the platform's 32-bit `int`. -/
def intMin : Int := -(2 ^ 31)

/-- Largest value of the platform's 32-bit `int`. -/
def intMax : Int := 2 ^ 31 - 1

/-- `(void *)(intptr_t)res` in `thrd_exit`: the 32-bit `int` is sign-extended
to the 64-bit `intptr_t` (value-preserving) and reinterpreted as a pointer,
i.e. the value's 64-bit two's-complement pattern. -/
def exitEncode (res : Int) : Nat := toPattern 64 res

/-- `(int)(intptr_t)retval` in `thrd_join`: the 64-bit pointer pattern is read
back as a signed `intptr_t` and narrowed to `int`, which (two's-complement
narrowing) keeps the low 32 bits and reinterprets them as signed. -/
def joinDecode (retval : Nat) : Int := toSigned 32 (retval % 2 ^ 32)

/-- ABI model of the cast `(void *(*)(void *))func` in `thrd_create`: the
start routine returns a 32-bit `int`, but pthreads captures a 64-bit
`void *` return register, so the captured pattern has the `int` result in
its low 32 bits and unspecified garbage in its high 32 bits. -/
def startRetval (v : Int) (garbage : Nat) : Nat :=
  toPattern 32 v + garbage % 2 ^ 32 * 2 ^ 32

/-- Outcome chosen by the OS for a `pthread_create` call.  POSIX leaves the
contents of the caller's `*thr` slot undefined after a failed call (real
implementations may scribble on it before failing), so the failure outcome
also carries `leftover`, the arbitrary contents the native call left in the
slot. -/
inductive CreateOutcome where
  | ok (h : thrd_t)
  | fail (errno : Nat) (leftover : Option thrd_t)

/-- Model of POSIX `pthread_create(thr, NULL, start, arg)`: on success it
returns `0` and stores the new thread's identifier through `thr`; on failure
it returns a nonzero error number (modelled as `errno + 1`) and the slot
holds the undefined `leftover` contents the outcome chose — not necessarily
the caller's prior contents. -/
def pthread_create (_slot : Option thrd_t) (out : CreateOutcome) : Nat × Option thrd_t :=
  match out with
  | CreateOutcome.ok h => (0, some h)
  | CreateOutcome.fail errno leftover => (errno + 1, leftover)

/-- `thrd_create` from the source:
`return pthread_create(thr, NULL, (void *(*)(void *))func, arg) ? thrd_error : thrd_success;`.
The caller's handle slot is threaded through explicitly. -/
def thrd_create (slot : Option thrd_t) (out : CreateOutcome) : Int × Option thrd_t :=
  let r := pthread_create slot out
  (if r.1 ≠ 0 then thrd_error else thrd_success, r.2)

/-- Outcome chosen by the OS for a `pthread_join` call: a clean join yields
the terminated thread's captured `void *` return pattern; a failed wait
yields an error number. -/
inductive JoinOutcome where
  | ok (retval : Nat)
  | fail (errno : Nat)

/-- `thrd_join` from the source.  `res : Option Int` models the `int *res`
argument: `none` is a NULL pointer, `some v` a pointer to a slot holding `v`.
The C code is
`if (pthread_join(thr, &retval)) return thrd_error;`
`if (res) *res = (int)(intptr_t)retval;`
`return thrd_success;`
and the result pairs the status with the slot's final contents. -/
def thrd_join (out : JoinOutcome) (res : Option Int) : Int × Option Int :=
  match out with
  | JoinOutcome.fail _ => (thrd_error, res)
  | JoinOutcome.ok retval =>
    match res with
    | none => (thrd_success, none)
    | some _ => (thrd_success, some (joinDecode retval))

/-- Model of `pthread_equal(a, b)`: nonzero (here `1`) exactly when the two
identifiers name the same thread, `0` otherwise. -/
def pthread_equal (a b : thrd_t) : Int := if a = b then 1 else 0

/-- `thrd_equal` from the source: `return pthread_equal(a, b);`. -/
def thrd_equal (a b : thrd_t) : Int := pthread_equal a b

/-- Model of `pthread_self()`: the identifier of the calling thread, a pure
function of which thread is executing the call. -/
def pthread_self (caller : Nat) : thrd_t := caller

/-- `thrd_current` from the source: `return pthread_self();`. -/
def thrd_current (caller : Nat) : thrd_t := pthread_self caller

/-- Outcome chosen by the OS for a `pthread_detach` call. -/
inductive DetachOutcome where
  | ok
  | fail (errno : Nat)

/-- Model of POSIX `pthread_detach`: `0` on success, a nonzero error number
(modelled as `errno + 1`) on failure. -/
def pthread_detach (out : DetachOutcome) : Nat :=
  match out with
  | DetachOutcome.ok => 0
  | DetachOutcome.fail errno => errno + 1

/-- `thrd_detach` from the source:
`return pthread_detach(thr) ? thrd_error : thrd_success;`. -/
def thrd_detach (out : DetachOutcome) : Int :=
  if pthread_detach out ≠ 0 then thrd_error else thrd_success

/-- Model of `nanosleep(dur, rem)`: returns `0` when the full duration has
elapsed and `-1` when interrupted by a signal (or on error). -/
def nanosleep (interrupted : Bool) : Int := if interrupted then -1 else 0

/-- `thrd_sleep` from the source: `return nanosleep(dur, rem);` — the native
result is forwarded unchanged. -/
def thrd_sleep (interrupted : Bool) : Int := nanosleep interrupted

/-- `thrd_exit` from the source: `pthread_exit((void *)(intptr_t)res);` —
the calling thread terminates and the encoded code becomes the captured
`void *` value a joiner will receive. -/
def thrd_exit (res : Int) : Nat := exitEncode res

/-- A step of a thread body, used to model control flow around `thrd_exit`:
a thread either performs an observable store to a shared cell or invokes
`thrd_exit`. -/
inductive ThreadAct where
  | store (v : Int)
  | exitWith (code : Int)

/-- Run a thread body to completion.  The body is a list of actions followed
by an ordinary `return ret` from the start routine; `mem` is the shared cell,
`garbage` the unspecified high register half (see `startRetval`).  The result
is the captured 64-bit return pattern and the final cell contents.
`pthread_exit` is `noreturn`: once `exitWith` runs, nothing after it does. -/
def runThread (garbage : Nat) : List ThreadAct → Int → Int → Nat × Int
  | [], ret, mem => (startRetval ret garbage, mem)
  | ThreadAct.exitWith code :: _, _, mem => (thrd_exit code, mem)
  | ThreadAct.store v :: rest, ret, _ => runThread garbage rest ret v

/- ## Arithmetic helper lemmas -/

/-- Round trip: the signed reading of the 32-bit pattern of an in-range
value is the value itself. -/
theorem toSigned32_toPattern32 (v : Int) (h1 : -(2 ^ 31) ≤ v) (h2 : v < 2 ^ 31) :
    toSigned 32 (toPattern 32 v) = v := by
  unfold toSigned toPattern
  norm_num
  split <;> omega

/-- The low 32 bits of a captured start-routine return pattern are exactly
the 32-bit pattern of the returned value. -/
theorem startRetval_mod (v : Int) (g : Nat) :
    startRetval v g % 2 ^ 32 = toPattern 32 v := by
  unfold startRetval toPattern
  have h : (0 : Int) ≤ v % (2 : Int) ^ 32 := Int.emod_nonneg v (by norm_num)
  have h2 : v % (2 : Int) ^ 32 < (2 : Int) ^ 32 := Int.emod_lt_of_pos v (by norm_num)
  norm_num at h h2 ⊢
  omega

/-- Decoding the value captured through the function-pointer cast recovers
the start routine's in-range return value bit-for-bit, whatever the garbage
in the high register half. -/
theorem joinDecode_startRetval (v : Int) (g : Nat)
    (h1 : -(2 ^ 31) ≤ v) (h2 : v < 2 ^ 31) :
    joinDecode (startRetval v g) = v := by
  unfold joinDecode
  rw [startRetval_mod]
  exact toSigned32_toPattern32 v h1 h2

/-- The low 32 bits of the 64-bit exit encoding are the value's 32-bit
pattern. -/
theorem exitEncode_mod (v : Int) : exitEncode v % 2 ^ 32 = toPattern 32 v := by
  unfold exitEncode toPattern
  have h : (0 : Int) ≤ v % (2 : Int) ^ 64 := Int.emod_nonneg v (by norm_num)
  have h2 : v % (2 : Int) ^ 64 < (2 : Int) ^ 64 := Int.emod_lt_of_pos v (by norm_num)
  have h3 : v % (2 : Int) ^ 64 % (2 : Int) ^ 32 = v % (2 : Int) ^ 32 :=
    Int.emod_emod_of_dvd v (by norm_num)
  have h4 : (0 : Int) ≤ v % (2 : Int) ^ 32 := Int.emod_nonneg v (by norm_num)
  norm_num at h h2 h3 h4 ⊢
  omega

/- ## Claim theorems -/

/-- C1: for every valid start routine `f` and argument `a` whose result
`f a` lies in the signed 32-bit range, a successful Create followed by a
clean Join on the spawned thread reconstructs an exit code equal to `f a`
bit-for-bit: Create returns `thrd_success`, and Join writes exactly `f a`
to the caller's result slot, for every garbage pattern the ABI leaves in
the high half of the captured return register. -/
theorem create_join_reconstructs_exit_code {α : Type} (f : α → Int) (a : α)
    (slot : Option thrd_t) (h : thrd_t) (garbage : Nat) (r0 : Int)
    (hlo : intMin ≤ f a) (hhi : f a ≤ intMax) :
    (thrd_create slot (CreateOutcome.ok h)).1 = thrd_success ∧
    thrd_join (JoinOutcome.ok (startRetval (f a) garbage)) (some r0) =
      (thrd_success, some (f a)) := by
  refine ⟨rfl, ?_⟩
  have hd : joinDecode (startRetval (f a) garbage) = f a := by
    apply joinDecode_startRetval
    · unfold intMin at hlo; omega
    · unfold intMax at hhi; omega
  simp [thrd_join, hd]

/-- Witness for C1 at the most negative 32-bit value, with nonzero garbage
in the high register half. -/
theorem create_join_reconstructs_exit_code_witness :
    (intMin ≤ (-(2 ^ 31) : Int) ∧ (-(2 ^ 31) : Int) ≤ intMax) ∧
    thrd_join (JoinOutcome.ok (startRetval (-(2 ^ 31)) 3735928559)) (some 7) =
      (thrd_success, some (-(2 ^ 31))) :=
  ⟨⟨by decide, by decide⟩,
   (create_join_reconstructs_exit_code (fun _ : Unit => -(2 ^ 31)) () (some 3) 0
      3735928559 7 (by decide) (by decide)).2⟩

/-- C2 counterexample: `thrd_sleep`, interrupted, returns `nanosleep`'s
result `-1`, which is not a member of the five-value status enumeration —
so not every status value returned by a fallible operation of the layer is
in the closed enumeration. -/
theorem sleep_status_counterexample :
    thrd_sleep true = -1 ∧ thrd_sleep true ∉ statusCodes := by
  constructor
  · rfl
  · decide

/-- C2 amended: Create, Join and Detach always return a member of the closed
enumeration (in fact only `thrd_success` or `thrd_error`), but `thrd_sleep`
forwards `nanosleep`'s result unchanged: `0` (numerically `thrd_success`) on
normal completion and `-1` — outside the enumeration — on interruption. -/
theorem status_codes_closed (slot : Option thrd_t) (cout : CreateOutcome)
    (jout : JoinOutcome) (res : Option Int) (dout : DetachOutcome) (i : Bool) :
    (thrd_create slot cout).1 ∈ statusCodes ∧
    (thrd_join jout res).1 ∈ statusCodes ∧
    thrd_detach dout ∈ statusCodes ∧
    (thrd_sleep i = 0 ∨ thrd_sleep i = -1) ∧
    thrd_sleep false = thrd_success := by
  refine ⟨?_, ?_, ?_, ?_, rfl⟩
  · cases cout <;> simp [thrd_create, pthread_create, statusCodes,
      thrd_success, thrd_error, thrd_timedout, thrd_busy, thrd_nomem]
  · cases jout <;> cases res <;> simp [thrd_join, statusCodes,
      thrd_success, thrd_error, thrd_timedout, thrd_busy, thrd_nomem]
  · cases dout <;> simp [thrd_detach, pthread_detach, statusCodes,
      thrd_success, thrd_error, thrd_timedout, thrd_busy, thrd_nomem]
  · cases i <;> simp [thrd_sleep, nanosleep]

/-- C3: for every signed 32-bit code, the pointer-sized
integer-encoded-as-address encoding performed by `thrd_exit`, decoded by a
subsequent successful Join, yields exactly the code:
`joinDecode (thrd_exit code) = code` over the whole `int` range. -/
theorem exit_join_roundtrip (code : Int) (hlo : intMin ≤ code) (hhi : code ≤ intMax) :
    joinDecode (thrd_exit code) = code := by
  unfold thrd_exit joinDecode
  rw [exitEncode_mod]
  apply toSigned32_toPattern32
  · unfold intMin at hlo; omega
  · unfold intMax at hhi; omega

/-- Witness for C3 at `-1`, whose 64-bit encoding has all bits set. -/
theorem exit_join_roundtrip_witness :
    (intMin ≤ (-1 : Int) ∧ (-1 : Int) ≤ intMax) ∧ joinDecode (thrd_exit (-1)) = -1 :=
  ⟨⟨by decide, by decide⟩, exit_join_roundtrip (-1) (by decide) (by decide)⟩

/-- C4: Create forwards to the native create (with NULL, i.e. default,
attributes) and returns `thrd_success` exactly when the native create
succeeds, in which case the new live handle has been written into the
caller's slot; when the native create fails it returns `thrd_error`.  The
two cases cover every native outcome. -/
theorem create_forwards_native (slot : Option thrd_t) (h : thrd_t) (errno : Nat)
    (leftover : Option thrd_t) :
    thrd_create slot (CreateOutcome.ok h) = (thrd_success, some h) ∧
    (thrd_create slot (CreateOutcome.fail errno leftover)).1 = thrd_error ∧
    thrd_success ≠ thrd_error := by
  refine ⟨rfl, ?_, by decide⟩
  simp [thrd_create, pthread_create]

/-- C5 counterexample: a failed Create need not leave the caller's handle
slot unchanged.  The shim passes the caller's pointer straight to the
native create, and POSIX leaves the slot's contents undefined after a
failed native create: here the native create fails after leaving `some 9`
in a slot that previously held `some 5`, so the slot was written by the
failed operation. -/
theorem create_failure_slot_counterexample :
    (thrd_create (some 5) (CreateOutcome.fail 0 (some 9))).2 ≠ some 5 := by decide

/-- C5 amended: whenever Create fails, the shim itself writes nothing to
the caller's handle slot, but it has already handed the slot to the native
create, whose failure leaves the contents undefined: after a failed Create
the slot holds exactly whatever the native create left there, and the
caller's prior contents are preserved exactly when the native create left
the slot untouched. -/
theorem create_failure_slot_is_native_leftover (slot leftover : Option thrd_t)
    (errno : Nat) :
    (thrd_create slot (CreateOutcome.fail errno leftover)).2 = leftover ∧
    (thrd_create slot (CreateOutcome.fail errno slot)).2 = slot :=
  ⟨rfl, rfl⟩

/-- C6: Join returns `thrd_success` on a clean native join (writing the
decoded exit code when a result slot is supplied) and `thrd_error` when the
native wait fails; when the result pointer is NULL the exit code is
discarded and a clean join still returns `thrd_success`. -/
theorem join_forwards_native (retval : Nat) (errno : Nat) (r0 : Int) (res : Option Int) :
    thrd_join (JoinOutcome.ok retval) (some r0) =
      (thrd_success, some (joinDecode retval)) ∧
    thrd_join (JoinOutcome.ok retval) none = (thrd_success, none) ∧
    thrd_join (JoinOutcome.fail errno) res = (thrd_error, res) := by
  refine ⟨rfl, rfl, ?_⟩
  unfold thrd_join
  rfl

/-- C7: `thrd_equal` is a pure comparison and an equivalence relation on
thread handles: reflexive, symmetric and transitive (truth is a nonzero
return, as in the C convention). -/
theorem equal_equivalence (a b c : thrd_t) :
    thrd_equal a a ≠ 0 ∧
    (thrd_equal a b ≠ 0 ↔ thrd_equal b a ≠ 0) ∧
    (thrd_equal a b ≠ 0 → thrd_equal b c ≠ 0 → thrd_equal a c ≠ 0) := by
  unfold thrd_equal pthread_equal
  refine ⟨by simp, by aesop, ?_⟩
  intro h1 h2
  by_cases hab : a = b <;> by_cases hbc : b = c <;> simp_all

/-- Witness for C7: transitivity applied at concrete handles, both
hypotheses discharged by reflexivity instances of the same theorem. -/
theorem equal_equivalence_witness : thrd_equal 2 2 ≠ 0 :=
  (equal_equivalence 2 2 2).2.2 (equal_equivalence 2 2 2).1 (equal_equivalence 2 2 2).1

/-- C8: Current is deterministic per calling thread — two handles obtained
by calling `thrd_current` twice from the same thread always compare equal
under `thrd_equal`. -/
theorem current_deterministic (t : Nat) :
    thrd_equal (thrd_current t) (thrd_current t) = 1 := by
  simp [thrd_equal, thrd_current, pthread_self, pthread_equal]

/-- C9: `thrd_exit` never returns to its caller: once a thread body invokes
it, no subsequent action of the body runs (the shared cell is untouched by
anything after the exit and the pending ordinary return is discarded), and
the thread's captured value is the deliberately encoded exit code, not an
error indication. -/
theorem exit_never_returns (code : Int) (rest : List ThreadAct)
    (ret mem : Int) (garbage : Nat) :
    runThread garbage (ThreadAct.exitWith code :: rest) ret mem =
      (thrd_exit code, mem) := rfl

/-- C10: whenever Join fails (the native wait reports an error), the
caller's result slot is left unchanged — the decoded exit code is written
only on the success path, so a failed Join has no observable effect at the
output location. -/
theorem join_failure_preserves_result_slot (errno : Nat) (res : Option Int) :
    thrd_join (JoinOutcome.fail errno) res = (thrd_error, res) := rfl
